import Mathlib

/-!
# Verification of the minimal Wannier90 WorkGraph builder

Shallow embedding of src/aiida_wannier90/workflows/minimal_workgraph.py.

The Python module defines a calcfunction (get_explicit_kpoints) converting
a k-point mesh into an explicit list, and a graph builder
(minimal_w90_workgraph) that normalizes a nested configuration dictionary
against defaults and wires five calculation tasks into a WorkGraph.

Modelling decisions:
- Python dictionaries become association lists (List (String × _)) with
  Python dict semantics: assignment replaces an existing binding in place,
  otherwise appends; dict.update folds assignment; dict.get returns an
  Option; key membership tests presence.
- The configuration tree is typed by the shape the builder actually reads
  (stage sections with optional parameters / kpoints / metadata / settings /
  kpoint_path / projections entries); scalar parameter values are an
  inductive PVal (string, rational number, boolean, list of naturals).
  Python floats appear only as exactly representable values here (30.0,
  multiples of 8), so rationals model them faithfully.
- In-place mutation of the caller-supplied inputs dict is modelled by the
  builder returning the mutated tree alongside its result; a Python
  exception becomes an Except.error carrying the tree as mutated at the
  point of raising.
- aiida orm.KpointsData is modelled as either a mesh (dimensions and
  shift) or an explicit point list; get_kpoints raises AttributeError on a
  mesh-only node (modelled as none), get_kpoints_mesh returns the mesh and
  shift, and with print_list=True the enumerated point list of length
  n1*n2*n3.
- Code / structure / pseudo-family references are opaque strings; resolving
  them through the registry is identity-like and irrelevant to the claims.
-/

set_option maxHeartbeats 1000000

namespace MinimalW90

/-- Scalar parameter values stored in the configuration dictionaries. -/
inductive PVal where
  | str (s : String)
  | num (q : ℚ)
  | bool (b : Bool)
  | natList (l : List Nat)
  deriving DecidableEq, Repr, Inhabited

/-- A flat Python dict from strings to scalar values (a Fortran namelist
such as CONTROL or SYSTEM, or the flat wannier90 parameter dict). -/
abbrev Namelist := List (String × PVal)

/-- A nested parameter dict: namelist name to namelist (the pw.x and
pw2wannier90 parameters dictionaries). -/
abbrev Params := List (String × Namelist)

/-- Python dict lookup d.get(k): the value bound to the key, if present. -/
def alookup {α : Type} (d : List (String × α)) (k : String) : Option α :=
  match d with
  | [] => none
  | (k', v) :: rest => if k' = k then some v else alookup rest k

/-- Python dict assignment d[k] = v: replace the binding in place when the
key is present, append otherwise. -/
def ainsert {α : Type} (d : List (String × α)) (k : String) (v : α) :
    List (String × α) :=
  match d with
  | [] => [(k, v)]
  | (k', v') :: rest =>
      if k' = k then (k, v) :: rest else (k', v') :: ainsert rest k v

/-- Python dict.update(other): fold assignment over the other dict. -/
def aupdate {α : Type} (d other : List (String × α)) : List (String × α) :=
  match other with
  | [] => d
  | (k, v) :: rest => aupdate (ainsert d k v) rest

/-- Python `if k not in d.keys(): d[k] = v` (fill a missing key only). -/
def setdefault {α : Type} (d : List (String × α)) (k : String) (v : α) :
    List (String × α) :=
  match alookup d k with
  | some _ => d
  | none => d ++ [(k, v)]

@[simp] theorem alookup_nil {α : Type} (k : String) :
    alookup ([] : List (String × α)) k = none := rfl

@[simp] theorem alookup_cons {α : Type} (k' k : String) (v : α)
    (rest : List (String × α)) :
    alookup ((k', v) :: rest) k =
      if k' = k then some v else alookup rest k := rfl

/-- aiida orm.KpointsData: either a Monkhorst-Pack mesh with a shift, or an
explicit list of points in fractional coordinates. -/
inductive KpointsData where
  | mesh (dims : Nat × Nat × Nat) (shift : ℚ × ℚ × ℚ)
  | explicitList (pts : List (ℚ × ℚ × ℚ))
  deriving DecidableEq, Repr

/-- KpointsData.get_kpoints(): the explicit list; on a mesh-only node the
aiida implementation raises AttributeError, modelled as none. -/
def KpointsData.get_kpoints : KpointsData → Option (List (ℚ × ℚ × ℚ))
  | .explicitList pts => some pts
  | .mesh _ _ => none

/-- KpointsData.get_kpoints_mesh(): the stored (mesh, shift) pair; raises
(none) on an explicit-list node. -/
def KpointsData.get_kpoints_mesh :
    KpointsData → Option ((Nat × Nat × Nat) × (ℚ × ℚ × ℚ))
  | .mesh d s => some (d, s)
  | .explicitList _ => none

/-- The explicit enumeration of an unshifted n1 x n2 x n3 Monkhorst-Pack
grid: fractional coordinates i/n1, j/n2, k/n3 in row-major order. -/
def meshPoints (dims : Nat × Nat × Nat) : List (ℚ × ℚ × ℚ) :=
  (List.range dims.1).flatMap fun (i : Nat) =>
    (List.range dims.2.1).flatMap fun (j : Nat) =>
      (List.range dims.2.2).map fun (k : Nat) =>
        ((i : ℚ) / (dims.1 : ℚ), (j : ℚ) / (dims.2.1 : ℚ),
          (k : ℚ) / (dims.2.2 : ℚ))

/-- KpointsData.get_kpoints_mesh(print_list=True): the enumerated point
list of the stored mesh; raises (none) on an explicit-list node. -/
def KpointsData.get_kpoints_mesh_print_list :
    KpointsData → Option (List (ℚ × ℚ × ℚ))
  | .mesh d _ => some (meshPoints d)
  | .explicitList _ => none

/-- The calcfunction get_explicit_kpoints: convert from a mesh to an
explicit list (none models the AttributeError on a non-mesh input). -/
def get_explicit_kpoints (kpoints : KpointsData) : Option KpointsData :=
  (kpoints.get_kpoints_mesh_print_list).map KpointsData.explicitList

theorem meshPoints_length (dims : Nat × Nat × Nat) :
    (meshPoints dims).length = dims.1 * dims.2.1 * dims.2.2 := by
  obtain ⟨n1, n2, n3⟩ := dims
  simp only [meshPoints, List.length_flatMap, Function.comp_def,
    List.length_map, List.length_range]
  have hconst : ∀ (n c : Nat),
      ((List.range n).map fun _ => c).sum = n * c := by
    intro n c
    induction n with
    | zero => simp
    | succ m ih => rw [List.range_succ]; simp [ih]; ring
  rw [hconst n2 n3, hconst n1 (n2 * n3)]
  ring

/-- A Python numeric context: floats and ints are numbers, and a bool
multiplies as 1 or 0; strings and lists are not numbers (TypeError). -/
def PVal.asNum : PVal → Option ℚ
  | .num q => some q
  | .bool b => some (if b then 1 else 0)
  | _ => none

/-- Values of a settings dictionary: the ADDITIONAL_RETRIEVE_LIST is a list
of file-glob strings; other entries are scalars. -/
inductive SVal where
  | strList (l : List String)
  | pval (v : PVal)
  deriving DecidableEq, Repr

abbrev Settings := List (String × SVal)

/-- The options sub-dictionary of a resource-metadata template. -/
structure ResourceOptions where
  resources : List (String × Nat)
  max_wallclock_seconds : Nat
  withmpi : Bool
  deriving DecidableEq, Repr

/-- Values of a metadata dictionary. -/
inductive MVal where
  | options (o : ResourceOptions)
  | pval (v : PVal)
  deriving DecidableEq, Repr

abbrev Metadata := List (String × MVal)

/-- Lines 44-50: the multi-node MPI resource-request template. -/
def metadata_default_mpi : Metadata :=
  [("options", .options
    { resources := [("num_machines", 2)],
      max_wallclock_seconds := 60 * 60 * 12,
      withmpi := true })]

/-- Lines 51-57: the single-node serial resource-request template. -/
def metadata_default_no_mpi : Metadata :=
  [("options", .options
    { resources := [("num_machines", 1)],
      max_wallclock_seconds := 60 * 60 * 12,
      withmpi := false })]

/-- The scf / nscf sections of the inputs tree, holding the keys the
builder reads: parameters, kpoints, metadata. A missing key is none. -/
structure PwStage where
  parameters : Option Params := none
  kpoints : Option KpointsData := none
  metadata : Option Metadata := none
  deriving DecidableEq, Repr

/-- The pw2wannier90 section: parameters, settings, metadata. -/
structure Pw2wanStage where
  parameters : Option Params := none
  settings : Option Settings := none
  metadata : Option Metadata := none
  deriving DecidableEq, Repr

/-- The wannier90 section: a flat parameter dict, kpoint_path, projections,
metadata. kpoint_path and projections are opaque payloads passed through. -/
structure W90Stage where
  parameters : Option Namelist := none
  kpoint_path : Option PVal := none
  projections : Option PVal := none
  metadata : Option Metadata := none
  deriving DecidableEq, Repr

/-- The caller-supplied inputs tree, one optional section per stage. -/
structure Inputs where
  scf : Option PwStage := none
  nscf : Option PwStage := none
  pw2wannier90 : Option Pw2wanStage := none
  wannier90 : Option W90Stage := none
  deriving DecidableEq, Repr

instance : Inhabited Inputs := ⟨{}⟩

/-- The codes mapping, with the three roles the builder indexes; the
load_code resolution of string entries is identity-like here (references
are opaque strings). -/
structure Codes where
  pw : String
  pw2wannier90 : String
  wannier90 : String
  deriving DecidableEq, Repr

/-- Modelling the external registry lookup chain load_group /
get_pseudos: an opaque reference derived from family and structure. -/
def get_pseudos (pseudo_family structure_ : String) : String :=
  pseudo_family ++ "/" ++ structure_

/-- A value bound to one named input slot of a task: either a socket
reference to another task's output (a data-dependency edge) or plain data. -/
inductive NodeInput where
  | socket (task : String) (port : String)
  | codeRef (c : String)
  | structureRef (s : String)
  | pseudosRef (p : String)
  | paramsDict (p : Params)
  | namelistDict (n : Namelist)
  | kpts (k : KpointsData)
  | meta (m : Metadata)
  | settingsDict (s : Settings)
  | pval (v : PVal)
  deriving DecidableEq, Repr

/-- One task of the WorkGraph: its name and its bound inputs. -/
structure Task where
  name : String
  inputs : List (String × NodeInput)
  deriving DecidableEq, Repr

/-- The task graph returned by the builder. -/
structure WorkGraph where
  name : String
  tasks : List Task
  deriving DecidableEq, Repr

/-- The ways graph construction can raise. The first four are the
documented structural validations (lines 71-72 numeric use, lines 90-109
asserts and ValueError); keyError models direct dictionary indexing of an
absent entry during graph wiring (lines 183, 208, 232). -/
inductive BuildError where
  | typeError (key : String)
  | nscfMissing
  | nscfKpointsMissing
  | explicitKpointsGiven
  | shiftNonzero
  | keyError (key : String)
  deriving DecidableEq, Repr

/-- The three documented k-point validation failures of section 4.1 of the
spec: missing nscf section or kpoints entry (one documented failure,
raised by two asserts), explicit-list k-points, nonzero shift. -/
def BuildError.isKpValidationError : BuildError → Bool
  | .nscfMissing => true
  | .nscfKpointsMissing => true
  | .explicitKpointsGiven => true
  | .shiftNonzero => true
  | _ => false

/-- Lines 132-138: the default pw2wannier90 inputpp namelist. -/
def pw2wannier_parameters_default_inputpp : Namelist :=
  [("write_amn", .bool true), ("write_unk", .bool true),
   ("write_mmn", .bool true)]

/-- Lines 158-168: the default wannier90 parameter dict; mp_grid is the
nscf mesh dimensions. -/
def w90_params_default (dims : Nat × Nat × Nat) : Namelist :=
  [("mp_grid", .natList [dims.1, dims.2.1, dims.2.2]),
   ("write_hr", .bool false),
   ("write_xyz", .bool false),
   ("use_ws_distance", .bool true),
   ("bands_plot", .bool true),
   ("num_iter", .num 200),
   ("guiding_centres", .bool false),
   ("num_wann", .num 4),
   ("exclude_bands", .natList [1, 2, 3, 4, 5])]

/-- Lines 60-69: create the scf section, its parameters dict and the
CONTROL and SYSTEM namelists when missing (in-place key creation). -/
def scfEnsureKeys (i : Inputs) : Inputs :=
  let s := i.scf.getD {}
  let ps := s.parameters.getD []
  let ps := setdefault ps "CONTROL" []
  let ps := setdefault ps "SYSTEM" []
  { i with scf := some { s with parameters := some ps } }

/-- Lines 71-84 of minimal_w90_workgraph: read the ecutwfc entry (kept
verbatim, defaulting to 30.0), recompute ecutrho as 8 x the numeric value
of that same ecutwfc entry (the ecutrho key is never read), force
calculation=scf in CONTROL and write both cutoffs into SYSTEM.
Multiplying a non-numeric ecutwfc by 8.0 is a Python TypeError, raised
before the CONTROL and SYSTEM updates are applied. -/
def scfCutoffs (i1 : Inputs) : Except BuildError Inputs :=
  let scf1 := i1.scf.getD {}
  let scfParams1 := scf1.parameters.getD []
  let scfSystem1 := (alookup scfParams1 "SYSTEM").getD []
  let ecutwfc : PVal := (alookup scfSystem1 "ecutwfc").getD (.num 30)
  match ((alookup scfSystem1 "ecutwfc").getD (.num 30)).asNum with
  | none => .error (.typeError "ecutwfc")
  | some w =>
    let scfControl := aupdate ((alookup scfParams1 "CONTROL").getD [])
      [("calculation", .str "scf")]
    let scfSystem := aupdate scfSystem1
      [("ecutwfc", ecutwfc), ("ecutrho", .num (w * 8))]
    let scfParams :=
      ainsert (ainsert scfParams1 "CONTROL" scfControl) "SYSTEM" scfSystem
    let scf2 : PwStage := { scf1 with parameters := some scfParams }
    .ok { i1 with scf := some scf2 }

/-- Lines 90-109: the asserts on the nscf section and its kpoints entry,
the ValueError when get_kpoints succeeds (an explicit list was given), the
unshifted-mesh assert, and the mesh-to-explicit-list conversion. Returns
the mesh dimensions together with the converted k-points. -/
def nscfValidate (i2 : Inputs) :
    Except BuildError ((Nat × Nat × Nat) × KpointsData) :=
  match i2.nscf with
  | none => .error .nscfMissing
  | some nscf1 =>
    match nscf1.kpoints with
    | none => .error .nscfKpointsMissing
    | some nkp =>
      match nkp.get_kpoints with
      | some _ => .error .explicitKpointsGiven
      | none =>
        match nkp.get_kpoints_mesh with
        | some (dims, shift) =>
            if shift = ((0 : ℚ), (0 : ℚ), (0 : ℚ)) then
              .ok (dims,
                (get_explicit_kpoints nkp).getD (.explicitList []))
            else .error .shiftNonzero
        | none => .error .shiftNonzero

/-- Lines 111-124: default-fill the nscf parameters dict and its CONTROL
namelist, clone the scf SYSTEM namelist when SYSTEM is missing from the
scf parameters (the test on line 115 reads the scf parameters, where
SYSTEM always exists after line 68, so the clone never fires), and force
calculation=nscf. -/
def nscfDefaults (i2 : Inputs) : Inputs :=
  let nscf1 := i2.nscf.getD {}
  let scfParams := (i2.scf.getD {}).parameters.getD []
  let nparams1 := setdefault (nscf1.parameters.getD []) "CONTROL" []
  let nparams2 :=
    if (alookup scfParams "SYSTEM").isNone
    then ainsert nparams1 "SYSTEM" ((alookup scfParams "SYSTEM").getD [])
    else nparams1
  let nControl := aupdate ((alookup nparams2 "CONTROL").getD [])
    [("calculation", .str "nscf")]
  let nparams := ainsert nparams2 "CONTROL" nControl
  let nscf2 : PwStage := { nscf1 with parameters := some nparams }
  { i2 with nscf := some nscf2 }

/-- Lines 142-145: the settings dict with ADDITIONAL_RETRIEVE_LIST set to
the three fixed glob patterns; dict.update replaces any caller-supplied
list under that key. -/
def pw2wanSettingsOf (p2w : Pw2wanStage) : Settings :=
  aupdate (p2w.settings.getD [])
    [("ADDITIONAL_RETRIEVE_LIST", .strList ["*.amn", "*.mmn", "*.eig"])]

/-- Lines 146-149: deep-copy the pw2wannier90 parameters and merge the
caller inputpp namelist over the defaults. -/
def pw2wanParamsOf (p2w : Pw2wanStage) : Params :=
  let d := p2w.parameters.getD []
  ainsert d "inputpp"
    (aupdate pw2wannier_parameters_default_inputpp
      ((alookup d "inputpp").getD []))

/-- Lines 140-145, tree mutations: create an empty pw2wannier90 section
when missing; when the caller supplied a settings dict, the update of
line 143 mutates that dict inside the tree (no deepcopy on this path). -/
def pw2wanEnsure (i3 : Inputs) : Inputs :=
  match i3.pw2wannier90 with
  | none => { i3 with pw2wannier90 := some {} }
  | some p2w =>
      let p2wUpdated : Pw2wanStage :=
        { p2w with settings := some (pw2wanSettingsOf p2w) }
      if p2w.settings.isSome
      then { i3 with pw2wannier90 := some p2wUpdated }
      else i3

/-- Lines 155-156: create an empty wannier90 section when missing. -/
def w90Ensure (i4 : Inputs) : Inputs :=
  match i4.wannier90 with
  | none => { i4 with wannier90 := some {} }
  | some _ => i4

/-- Lines 175-238: wire the five tasks. All stage-level values bound to
the tasks are read back from the mutated tree i5 (every value below is
equal to the local variable of the source at this point, since no further
tree mutation happens during wiring). Direct indexing of the scf kpoints
entry (line 183), the wannier90 kpoint_path (lines 208, 232) and
projections (lines 209, 234) raises KeyError when the entry is absent. -/
def wireGraph (codes : Codes) (structure_ pseudos : String) (i5 : Inputs)
    (dims : Nat × Nat × Nat) (nscf_kpoints : KpointsData) :
    Except BuildError WorkGraph :=
  let scf1 := i5.scf.getD {}
  let scfParams := scf1.parameters.getD []
  let scf_metadata := aupdate metadata_default_mpi (scf1.metadata.getD [])
  let nscf1 := i5.nscf.getD {}
  let nparams := nscf1.parameters.getD []
  let nscf_metadata := aupdate metadata_default_mpi (nscf1.metadata.getD [])
  let p2w := i5.pw2wannier90.getD {}
  let pw2wannier_settings := pw2wanSettingsOf p2w
  let pw2wannier90_params := pw2wanParamsOf p2w
  let pw2wan_metadata := aupdate metadata_default_mpi (p2w.metadata.getD [])
  let w90in := i5.wannier90.getD {}
  let w90_params := aupdate (w90_params_default dims) (w90in.parameters.getD [])
  let wannier90_metadata := aupdate metadata_default_no_mpi
    (w90in.metadata.getD [])
  match scf1.kpoints with
  | none => .error (.keyError "kpoints")
  | some scf_kpoints =>
  match w90in.kpoint_path with
  | none => .error (.keyError "kpoint_path")
  | some kpath =>
  match w90in.projections with
  | none => .error (.keyError "projections")
  | some projections =>
  .ok
    { name := "Minimal Wannier90 workchain",
      tasks :=
        [{ name := "scf",
           inputs :=
             [("code", .codeRef codes.pw),
              ("structure", .structureRef structure_),
              ("pseudos", .pseudosRef pseudos),
              ("parameters", .paramsDict scfParams),
              ("kpoints", .kpts scf_kpoints),
              ("metadata", .meta scf_metadata)] },
         { name := "nscf",
           inputs :=
             [("code", .codeRef codes.pw),
              ("structure", .structureRef structure_),
              ("pseudos", .pseudosRef pseudos),
              ("parameters", .paramsDict nparams),
              ("kpoints", .kpts nscf_kpoints),
              ("parent_folder", .socket "scf" "remote_folder"),
              ("metadata", .meta nscf_metadata)] },
         { name := "w90_pp",
           inputs :=
             [("code", .codeRef codes.wannier90),
              ("structure", .structureRef structure_),
              ("parameters", .namelistDict w90_params),
              ("kpoints", .kpts nscf_kpoints),
              ("kpoint_path", .pval kpath),
              ("projections", .pval projections),
              ("settings", .settingsDict
                [("postproc_setup", .pval (.bool true))]),
              ("metadata", .meta metadata_default_no_mpi)] },
         { name := "pw2wan",
           inputs :=
             [("code", .codeRef codes.pw2wannier90),
              ("parameters", .paramsDict pw2wannier90_params),
              ("parent_folder", .socket "nscf" "remote_folder"),
              ("nnkp_file", .socket "w90_pp" "nnkp_file"),
              ("settings", .settingsDict pw2wannier_settings),
              ("metadata", .meta pw2wan_metadata)] },
         { name := "w90",
           inputs :=
             [("code", .codeRef codes.wannier90),
              ("structure", .structureRef structure_),
              ("parameters", .namelistDict w90_params),
              ("kpoints", .kpts nscf_kpoints),
              ("kpoint_path", .pval kpath),
              ("remote_input_folder", .socket "pw2wan" "remote_folder"),
              ("projections", .pval projections),
              ("metadata", .meta wannier90_metadata)] }] }

/-- The graph builder minimal_w90_workgraph (lines 24-238), as the
composition of its phases in source order.

The returned pair is (inputs tree as mutated in place, result): the Python
function mutates the caller-supplied dict and either raises (Except.error,
the tree reflecting every mutation made before the raise) or returns the
wired WorkGraph. -/
def minimal_w90_workgraph (codes : Codes) (structure_ : String)
    (pseudo_family : String) (inputs : Option Inputs) :
    Inputs × Except BuildError WorkGraph :=
  let pseudos := get_pseudos pseudo_family structure_
  let i1 := scfEnsureKeys (inputs.getD {})
  match scfCutoffs i1 with
  | .error e => (i1, .error e)
  | .ok i2 =>
  match nscfValidate i2 with
  | .error e => (i2, .error e)
  | .ok (dims, nscf_kpoints) =>
  let i3 := nscfDefaults i2
  let i4 := pw2wanEnsure i3
  let i5 := w90Ensure i4
  match wireGraph codes structure_ pseudos i5 dims nscf_kpoints with
  | .error e => (i5, .error e)
  | .ok wg => (i5, .ok wg)
/-! ## Dictionary lemmas -/

theorem alookup_ainsert_self {α : Type} (d : List (String × α)) (k : String)
    (v : α) : alookup (ainsert d k v) k = some v := by
  induction d with
  | nil => simp [ainsert, alookup]
  | cons hd tl ih =>
      obtain ⟨k', v'⟩ := hd
      by_cases h : k' = k <;> simp [ainsert, alookup, h, ih]

theorem alookup_ainsert_ne {α : Type} (d : List (String × α)) (k k' : String)
    (v : α) (h : k ≠ k') : alookup (ainsert d k v) k' = alookup d k' := by
  induction d with
  | nil => simp [ainsert, alookup, h]
  | cons hd tl ih =>
      obtain ⟨k0, v0⟩ := hd
      by_cases h0 : k0 = k
      · subst h0; simp [ainsert, alookup, h]
      · simp [ainsert, h0, alookup, ih]

theorem alookup_setdefault_self {α : Type} (d : List (String × α))
    (k : String) (v : α) :
    alookup (setdefault d k v) k = some ((alookup d k).getD v) := by
  unfold setdefault
  match h : alookup d k with
  | some w => simp [h]
  | none =>
      simp [h]
      induction d with
      | nil => simp [alookup]
      | cons hd tl ih =>
          obtain ⟨k0, v0⟩ := hd
          by_cases h0 : k0 = k
          · simp [alookup, h0] at h
          · simp [alookup, h0] at h ⊢
            exact ih h

theorem alookup_setdefault_ne {α : Type} (d : List (String × α))
    (k k' : String) (v : α) (h : k ≠ k') :
    alookup (setdefault d k v) k' = alookup d k' := by
  unfold setdefault
  match hx : alookup d k with
  | some w => simp
  | none =>
      induction d with
      | nil => simp [alookup, h]
      | cons hd tl ih =>
          obtain ⟨k0, v0⟩ := hd
          by_cases h0 : k0 = k'
          · simp [alookup, h0]
          · simp [alookup, h0]
            by_cases h1 : k0 = k
            · simp [alookup, h1] at hx
            · simp [alookup, h1] at hx
              exact ih hx

/-! ## Accessors over the builder result, used to state the claims -/

/-- The SYSTEM namelist of the scf section of a tree (empty when any
level is missing). -/
def scfSystemOf (i : Inputs) : Namelist :=
  (alookup ((i.scf.getD {}).parameters.getD []) "SYSTEM").getD []

/-- The CONTROL namelist of the scf section of a tree (empty when any
level is missing). -/
def scfControlOf (i : Inputs) : Namelist :=
  (alookup ((i.scf.getD {}).parameters.getD []) "CONTROL").getD []

/-- The SYSTEM namelist of the scf section of the caller-supplied tree
(empty when any level is missing): the values the defaults compare to. -/
def origScfSystem (inputs : Option Inputs) : Namelist :=
  scfSystemOf (inputs.getD {})

/-- The SYSTEM namelist of the scf section of the mutated tree returned by
the builder. -/
def builtScfSystem (r : Inputs × Except BuildError WorkGraph) : Namelist :=
  scfSystemOf r.1

/-- The named task of a successfully built graph. -/
def findTask (r : Except BuildError WorkGraph) (tname : String) : Option Task :=
  match r with
  | .ok wg => wg.tasks.find? (fun t => t.name = tname)
  | .error _ => none

/-- The names of the tasks of a successfully built graph, in order. -/
def wgNames (r : Except BuildError WorkGraph) : Option (List String) :=
  match r with
  | .ok wg => some (wg.tasks.map Task.name)
  | .error _ => none

/-- All data-dependency edges of a successfully built graph, as
(consumer task, consumer slot, producer task, producer output) tuples. -/
def wgEdges (r : Except BuildError WorkGraph) :
    Option (List (String × String × String × String)) :=
  match r with
  | .ok wg => some (wg.tasks.flatMap fun t =>
      t.inputs.filterMap fun p =>
        match p.2 with
        | .socket src port => some (t.name, p.1, src, port)
        | _ => none)
  | .error _ => none

/-- The nested parameters dict bound to a task. -/
def taskParams (r : Except BuildError WorkGraph) (tname : String) :
    Option Params :=
  match findTask r tname with
  | some t =>
      match alookup t.inputs "parameters" with
      | some (.paramsDict p) => some p
      | _ => none
  | none => none

/-- The flat parameter dict bound to a wannier90-style task. -/
def taskNamelist (r : Except BuildError WorkGraph) (tname : String) :
    Option Namelist :=
  match findTask r tname with
  | some t =>
      match alookup t.inputs "parameters" with
      | some (.namelistDict n) => some n
      | _ => none
  | none => none

/-- The settings dict bound to a task. -/
def taskSettings (r : Except BuildError WorkGraph) (tname : String) :
    Option Settings :=
  match findTask r tname with
  | some t =>
      match alookup t.inputs "settings" with
      | some (.settingsDict s) => some s
      | _ => none
  | none => none

/-- The metadata dict bound to a task. -/
def taskMetadata (r : Except BuildError WorkGraph) (tname : String) :
    Option Metadata :=
  match findTask r tname with
  | some t =>
      match alookup t.inputs "metadata" with
      | some (.meta m) => some m
      | _ => none
  | none => none

/-- The k-points input bound to a task. -/
def taskKpoints (r : Except BuildError WorkGraph) (tname : String) :
    Option KpointsData :=
  match findTask r tname with
  | some t =>
      match alookup t.inputs "kpoints" with
      | some (.kpts k) => some k
      | _ => none
  | none => none

/-- The ADDITIONAL_RETRIEVE_LIST entry of a settings dict. -/
def retrieveList (s : Settings) : List String :=
  match alookup s "ADDITIONAL_RETRIEVE_LIST" with
  | some (.strList l) => l
  | _ => []

/-! ## Phase lemmas -/

theorem ainsert_ainsert_same {α : Type} (d : List (String × α))
    (k : String) (v v' : α) :
    ainsert (ainsert d k v) k v' = ainsert d k v' := by
  induction d with
  | nil => simp [ainsert]
  | cons hd tl ih =>
      obtain ⟨k0, v0⟩ := hd
      by_cases h : k0 = k
      · simp [ainsert, h]
      · simp [ainsert, h, ih]

@[simp] theorem scfEnsureKeys_nscf (i : Inputs) :
    (scfEnsureKeys i).nscf = i.nscf := rfl

@[simp] theorem scfEnsureKeys_pw2wannier90 (i : Inputs) :
    (scfEnsureKeys i).pw2wannier90 = i.pw2wannier90 := rfl

@[simp] theorem scfEnsureKeys_wannier90 (i : Inputs) :
    (scfEnsureKeys i).wannier90 = i.wannier90 := rfl

@[simp] theorem scfEnsureKeys_kpoints (i : Inputs) :
    ((scfEnsureKeys i).scf.getD {}).kpoints = (i.scf.getD {}).kpoints := rfl

@[simp] theorem scfEnsureKeys_metadata (i : Inputs) :
    ((scfEnsureKeys i).scf.getD {}).metadata = (i.scf.getD {}).metadata := rfl

theorem scfEnsureKeys_system (i : Inputs) :
    scfSystemOf (scfEnsureKeys i) = scfSystemOf i := by
  simp only [scfSystemOf, scfEnsureKeys, Option.getD_some]
  rw [alookup_setdefault_self, alookup_setdefault_ne _ _ _ _ (by decide)]
  simp

theorem scfEnsureKeys_control (i : Inputs) :
    scfControlOf (scfEnsureKeys i) = scfControlOf i := by
  simp only [scfControlOf, scfEnsureKeys, Option.getD_some]
  rw [alookup_setdefault_ne _ _ _ _ (by decide), alookup_setdefault_self]
  simp

/-- The scf cutoff step when the ecutwfc entry is numeric (or absent):
characterization of the updated tree. -/
theorem scfCutoffs_ok (i1 : Inputs) (w : ℚ)
    (hw : ((alookup (scfSystemOf i1) "ecutwfc").getD (.num 30)).asNum = some w) :
    ∃ i2, scfCutoffs i1 = .ok i2
      ∧ i2.nscf = i1.nscf
      ∧ i2.pw2wannier90 = i1.pw2wannier90
      ∧ i2.wannier90 = i1.wannier90
      ∧ (i2.scf.getD {}).kpoints = (i1.scf.getD {}).kpoints
      ∧ (i2.scf.getD {}).metadata = (i1.scf.getD {}).metadata
      ∧ (∃ s ps, i2.scf = some s ∧ s.parameters = some ps
          ∧ alookup ps "CONTROL" = some (aupdate (scfControlOf i1)
              [("calculation", .str "scf")])
          ∧ alookup ps "SYSTEM" = some (aupdate (scfSystemOf i1)
              [("ecutwfc", (alookup (scfSystemOf i1) "ecutwfc").getD (.num 30)),
               ("ecutrho", .num (w * 8))])) := by
  unfold scfCutoffs
  simp only [scfSystemOf] at hw
  dsimp only
  rw [hw]
  refine ⟨_, rfl, rfl, rfl, rfl, rfl, rfl, ?_⟩
  refine ⟨_, _, rfl, rfl, ?_, ?_⟩
  · rw [alookup_ainsert_ne _ _ _ _ (by decide), alookup_ainsert_self]
    rfl
  · rw [alookup_ainsert_self]
    rfl

/-- The scf cutoff step raises TypeError exactly when the ecutwfc entry is
present and non-numeric. -/
theorem scfCutoffs_err (i1 : Inputs)
    (hw : ((alookup (scfSystemOf i1) "ecutwfc").getD (.num 30)).asNum = none) :
    scfCutoffs i1 = .error (.typeError "ecutwfc") := by
  unfold scfCutoffs
  simp only [scfSystemOf] at hw
  dsimp only
  rw [hw]

/-- Inversion of a successful nscf validation: the section and a zero-shift
mesh were present, and the conversion produced the enumerated points. -/
theorem nscfValidate_ok_inv (i2 : Inputs) (dims : Nat × Nat × Nat)
    (nkpts : KpointsData)
    (h : nscfValidate i2 = .ok (dims, nkpts)) :
    ∃ ns, i2.nscf = some ns
      ∧ ns.kpoints = some (.mesh dims ((0 : ℚ), (0 : ℚ), (0 : ℚ)))
      ∧ nkpts = .explicitList (meshPoints dims) := by
  unfold nscfValidate at h
  match hns : i2.nscf with
  | none => simp [hns] at h
  | some ns =>
    simp only [hns] at h
    match hkp : ns.kpoints with
    | none => simp [hkp] at h
    | some nkp =>
      simp only [hkp] at h
      match nkp with
      | .explicitList pts => simp [KpointsData.get_kpoints] at h
      | .mesh d s =>
          simp only [KpointsData.get_kpoints, KpointsData.get_kpoints_mesh] at h
          by_cases hs : s = ((0 : ℚ), (0 : ℚ), (0 : ℚ))
          · rw [if_pos hs] at h
            simp [get_explicit_kpoints,
              KpointsData.get_kpoints_mesh_print_list] at h
            exact ⟨ns, rfl, by rw [hkp, h.1, hs], by rw [← h.1]; exact h.2.symm⟩
          · rw [if_neg hs] at h
            exact absurd h (by simp)

/-- The error cases of the nscf validation. -/
theorem nscfValidate_err (i2 : Inputs) :
    (i2.nscf = none → nscfValidate i2 = .error .nscfMissing)
    ∧ (∀ ns, i2.nscf = some ns → ns.kpoints = none →
        nscfValidate i2 = .error .nscfKpointsMissing)
    ∧ (∀ ns pts, i2.nscf = some ns → ns.kpoints = some (.explicitList pts) →
        nscfValidate i2 = .error .explicitKpointsGiven)
    ∧ (∀ ns dims shift, i2.nscf = some ns →
        ns.kpoints = some (.mesh dims shift) →
        shift ≠ ((0 : ℚ), (0 : ℚ), (0 : ℚ)) →
        nscfValidate i2 = .error .shiftNonzero) := by
  refine ⟨?_, ?_, ?_, ?_⟩
  · intro h; simp [nscfValidate, h]
  · intro ns h hk; simp [nscfValidate, h, hk]
  · intro ns pts h hk
    simp [nscfValidate, h, hk, KpointsData.get_kpoints]
  · intro ns dims shift h hk hs
    simp only [nscfValidate, h, hk, KpointsData.get_kpoints,
      KpointsData.get_kpoints_mesh]
    rw [if_neg hs]

/-- The zero-shift mesh case of the nscf validation succeeds. -/
theorem nscfValidate_ok (i2 : Inputs) (ns : PwStage) (dims : Nat × Nat × Nat)
    (h : i2.nscf = some ns)
    (hk : ns.kpoints = some (.mesh dims ((0 : ℚ), (0 : ℚ), (0 : ℚ)))) :
    nscfValidate i2 = .ok (dims, .explicitList (meshPoints dims)) := by
  simp [nscfValidate, h, hk, KpointsData.get_kpoints,
    KpointsData.get_kpoints_mesh, get_explicit_kpoints,
    KpointsData.get_kpoints_mesh_print_list]

@[simp] theorem nscfDefaults_scf (i : Inputs) :
    (nscfDefaults i).scf = i.scf := rfl

@[simp] theorem nscfDefaults_pw2wannier90 (i : Inputs) :
    (nscfDefaults i).pw2wannier90 = i.pw2wannier90 := rfl

@[simp] theorem nscfDefaults_wannier90 (i : Inputs) :
    (nscfDefaults i).wannier90 = i.wannier90 := rfl

@[simp] theorem nscfDefaults_nscf_kpoints (i : Inputs) :
    ((nscfDefaults i).nscf.getD {}).kpoints = (i.nscf.getD {}).kpoints := rfl

@[simp] theorem nscfDefaults_nscf_metadata (i : Inputs) :
    ((nscfDefaults i).nscf.getD {}).metadata = (i.nscf.getD {}).metadata := rfl

@[simp] theorem pw2wanEnsure_scf (i : Inputs) :
    (pw2wanEnsure i).scf = i.scf := by
  unfold pw2wanEnsure
  match h : i.pw2wannier90 with
  | none => rfl
  | some p2w => dsimp only; split <;> rfl

@[simp] theorem pw2wanEnsure_nscf (i : Inputs) :
    (pw2wanEnsure i).nscf = i.nscf := by
  unfold pw2wanEnsure
  match h : i.pw2wannier90 with
  | none => rfl
  | some p2w => dsimp only; split <;> rfl

@[simp] theorem pw2wanEnsure_wannier90 (i : Inputs) :
    (pw2wanEnsure i).wannier90 = i.wannier90 := by
  unfold pw2wanEnsure
  match h : i.pw2wannier90 with
  | none => rfl
  | some p2w => dsimp only; split <;> rfl

@[simp] theorem w90Ensure_scf (i : Inputs) :
    (w90Ensure i).scf = i.scf := by
  unfold w90Ensure
  match h : i.wannier90 with
  | none => rfl
  | some _ => rfl

@[simp] theorem w90Ensure_nscf (i : Inputs) :
    (w90Ensure i).nscf = i.nscf := by
  unfold w90Ensure
  match h : i.wannier90 with
  | none => rfl
  | some _ => rfl

@[simp] theorem w90Ensure_pw2wannier90 (i : Inputs) :
    (w90Ensure i).pw2wannier90 = i.pw2wannier90 := by
  unfold w90Ensure
  match h : i.wannier90 with
  | none => rfl
  | some _ => rfl

@[simp] theorem w90Ensure_wannier90 (i : Inputs) :
    (w90Ensure i).wannier90 = some (i.wannier90.getD {}) := by
  unfold w90Ensure
  match h : i.wannier90 with
  | none => rfl
  | some _ => simp [h]

/-- Re-applying the settings update is idempotent, so the settings read
back from the mutated tree produce the same dict the source bound. -/
theorem pw2wanSettingsOf_idem (p2w : Pw2wanStage) :
    pw2wanSettingsOf { p2w with settings := some (pw2wanSettingsOf p2w) }
      = pw2wanSettingsOf p2w := by
  simp [pw2wanSettingsOf, aupdate, ainsert_ainsert_same]

/-- The pw2wannier90 stage read back from the tree after pw2wanEnsure has
the same settings-update result, parameters and metadata as the stage the
source read. -/
theorem pw2wanEnsure_stage (i : Inputs) :
    pw2wanSettingsOf ((pw2wanEnsure i).pw2wannier90.getD {})
        = pw2wanSettingsOf (i.pw2wannier90.getD {})
      ∧ ((pw2wanEnsure i).pw2wannier90.getD {}).parameters
        = (i.pw2wannier90.getD {}).parameters
      ∧ ((pw2wanEnsure i).pw2wannier90.getD {}).metadata
        = (i.pw2wannier90.getD {}).metadata := by
  unfold pw2wanEnsure
  match h : i.pw2wannier90 with
  | none => simp [h]
  | some p2w =>
      dsimp only
      split
      · simp [h, pw2wanSettingsOf_idem]
      · simp [h]

/-- Accessor values of the wired graph, given the three directly indexed
entries are present. -/
theorem wireGraph_parts (codes : Codes) (st pseudos : String) (i5 : Inputs)
    (dims : Nat × Nat × Nat) (nkpts kp : KpointsData) (kpath projs : PVal)
    (h1 : (i5.scf.getD {}).kpoints = some kp)
    (h2 : (i5.wannier90.getD {}).kpoint_path = some kpath)
    (h3 : (i5.wannier90.getD {}).projections = some projs) :
    ∃ wg, wireGraph codes st pseudos i5 dims nkpts = .ok wg
      ∧ wgNames (.ok wg) = some ["scf", "nscf", "w90_pp", "pw2wan", "w90"]
      ∧ taskSettings (.ok wg) "pw2wan"
          = some (pw2wanSettingsOf (i5.pw2wannier90.getD {}))
      ∧ taskKpoints (.ok wg) "w90_pp" = some nkpts
      ∧ taskKpoints (.ok wg) "w90" = some nkpts
      ∧ taskMetadata (.ok wg) "scf"
          = some (aupdate metadata_default_mpi ((i5.scf.getD {}).metadata.getD []))
      ∧ taskMetadata (.ok wg) "nscf"
          = some (aupdate metadata_default_mpi ((i5.nscf.getD {}).metadata.getD []))
      ∧ taskMetadata (.ok wg) "pw2wan"
          = some (aupdate metadata_default_mpi ((i5.pw2wannier90.getD {}).metadata.getD []))
      ∧ taskMetadata (.ok wg) "w90_pp" = some metadata_default_no_mpi
      ∧ taskMetadata (.ok wg) "w90"
          = some (aupdate metadata_default_no_mpi ((i5.wannier90.getD {}).metadata.getD []))
      ∧ taskParams (.ok wg) "nscf" = some ((i5.nscf.getD {}).parameters.getD [])
      ∧ taskNamelist (.ok wg) "w90"
          = some (aupdate (w90_params_default dims) ((i5.wannier90.getD {}).parameters.getD [])) := by
  simp only [wireGraph, h1, h2, h3]
  refine ⟨_, rfl, ?_⟩
  simp [wgNames, taskSettings, taskKpoints, taskMetadata, taskParams,
    taskNamelist, findTask, List.find?, alookup]

/-- A successfully wired graph requires the three directly indexed
entries to be present. -/
theorem wireGraph_ok_inv (codes : Codes) (st pseudos : String)
    (i5 : Inputs) (dims : Nat × Nat × Nat) (nkpts : KpointsData)
    (wg : WorkGraph)
    (h : wireGraph codes st pseudos i5 dims nkpts = .ok wg) :
    ∃ kp kpath projs, (i5.scf.getD {}).kpoints = some kp
      ∧ (i5.wannier90.getD {}).kpoint_path = some kpath
      ∧ (i5.wannier90.getD {}).projections = some projs := by
  unfold wireGraph at h
  dsimp only at h
  match hk : (i5.scf.getD {}).kpoints with
  | none => simp [hk] at h
  | some kp =>
    simp only [hk] at h
    match hp : (i5.wannier90.getD {}).kpoint_path with
    | none => simp [hp] at h
    | some kpath =>
      simp only [hp] at h
      match hj : (i5.wannier90.getD {}).projections with
      | none => simp [hj] at h
      | some projs => exact ⟨kp, kpath, projs, rfl, rfl, rfl⟩

/-- The mutated tree of the builder has the scf section of the cutoff
phase result, in every outcome reached after that phase succeeds. -/
theorem build_fst_scf (codes : Codes) (st pf : String) (inp : Option Inputs)
    (i2 : Inputs)
    (hok : scfCutoffs (scfEnsureKeys (inp.getD {})) = .ok i2) :
    (minimal_w90_workgraph codes st pf inp).1.scf = i2.scf := by
  unfold minimal_w90_workgraph
  dsimp only
  rw [hok]
  dsimp only
  cases hnv : nscfValidate i2 with
  | error e => rfl
  | ok p =>
      obtain ⟨dims, nkpts⟩ := p
      dsimp only
      cases hwg : wireGraph codes st (get_pseudos pf st)
          (w90Ensure (pw2wanEnsure (nscfDefaults i2))) dims nkpts with
      | error e => simp
      | ok wg => simp

/-- The builder propagates a TypeError from the cutoff phase; the tree at
that point has only the key-creation mutations. -/
theorem build_typeError (codes : Codes) (st pf : String)
    (inp : Option Inputs) (er : BuildError)
    (he : scfCutoffs (scfEnsureKeys (inp.getD {})) = .error er) :
    (minimal_w90_workgraph codes st pf inp)
      = (scfEnsureKeys (inp.getD {}), .error er) := by
  unfold minimal_w90_workgraph
  dsimp only
  rw [he]

/-- The builder propagates an nscf validation error; the tree at that
point is the cutoff phase result. -/
theorem build_validate_err (codes : Codes) (st pf : String)
    (inp : Option Inputs) (i2 : Inputs) (e : BuildError)
    (hok : scfCutoffs (scfEnsureKeys (inp.getD {})) = .ok i2)
    (he : nscfValidate i2 = .error e) :
    (minimal_w90_workgraph codes st pf inp) = (i2, .error e) := by
  unfold minimal_w90_workgraph
  dsimp only
  rw [hok]
  dsimp only
  rw [he]

/-- After both early phases succeed the builder result is the wiring
result on the fully defaulted tree. -/
theorem build_snd_wire (codes : Codes) (st pf : String)
    (inp : Option Inputs) (i2 : Inputs) (dims : Nat × Nat × Nat)
    (nkpts : KpointsData)
    (h1 : scfCutoffs (scfEnsureKeys (inp.getD {})) = .ok i2)
    (h2 : nscfValidate i2 = .ok (dims, nkpts)) :
    (minimal_w90_workgraph codes st pf inp).2
      = wireGraph codes st (get_pseudos pf st)
          (w90Ensure (pw2wanEnsure (nscfDefaults i2))) dims nkpts := by
  unfold minimal_w90_workgraph
  dsimp only
  rw [h1]
  dsimp only
  rw [h2]
  dsimp only
  cases hwg : wireGraph codes st (get_pseudos pf st)
      (w90Ensure (pw2wanEnsure (nscfDefaults i2))) dims nkpts with
  | error e => simp
  | ok wg => simp

/-- Inversion of a successful build into its three phases. -/
theorem build_ok_inv (codes : Codes) (st pf : String) (inp : Option Inputs)
    (wg : WorkGraph)
    (h : (minimal_w90_workgraph codes st pf inp).2 = .ok wg) :
    ∃ i2 dims nkpts,
      scfCutoffs (scfEnsureKeys (inp.getD {})) = .ok i2
      ∧ nscfValidate i2 = .ok (dims, nkpts)
      ∧ wireGraph codes st (get_pseudos pf st)
          (w90Ensure (pw2wanEnsure (nscfDefaults i2))) dims nkpts = .ok wg
      ∧ (minimal_w90_workgraph codes st pf inp).1
          = w90Ensure (pw2wanEnsure (nscfDefaults i2)) := by
  unfold minimal_w90_workgraph at h ⊢
  dsimp only at h ⊢
  cases hc : scfCutoffs (scfEnsureKeys (inp.getD {})) with
  | error e => rw [hc] at h; simp at h
  | ok i2 =>
    rw [hc] at h
    dsimp only at h ⊢
    cases hnv : nscfValidate i2 with
    | error e => rw [hnv] at h; simp at h
    | ok p =>
      obtain ⟨dims, nkpts⟩ := p
      rw [hnv] at h
      dsimp only at h ⊢
      cases hwg : wireGraph codes st (get_pseudos pf st)
          (w90Ensure (pw2wanEnsure (nscfDefaults i2))) dims nkpts with
      | error e => rw [hwg] at h; simp at h
      | ok wg2 =>
        rw [hwg] at h
        simp only [Except.ok.injEq] at h
        exact ⟨i2, dims, nkpts, rfl, hnv, by rw [hwg, h], rfl⟩

/-- A successful cutoff phase only rewrites the scf parameters: every
other section and the scf kpoints and metadata are unchanged. -/
theorem scfCutoffs_ok_sections (i1 i2 : Inputs)
    (h : scfCutoffs i1 = .ok i2) :
    i2.nscf = i1.nscf
    ∧ i2.pw2wannier90 = i1.pw2wannier90
    ∧ i2.wannier90 = i1.wannier90
    ∧ (i2.scf.getD {}).kpoints = (i1.scf.getD {}).kpoints
    ∧ (i2.scf.getD {}).metadata = (i1.scf.getD {}).metadata := by
  unfold scfCutoffs at h
  dsimp only at h
  split at h
  · exact absurd h (by simp)
  · simp only [Except.ok.injEq] at h
    subst h
    exact ⟨rfl, rfl, rfl, rfl, rfl⟩

/-- The cutoff phase can only fail with the ecutwfc TypeError. -/
theorem scfCutoffs_error_inv (i1 : Inputs) (e : BuildError)
    (h : scfCutoffs i1 = .error e) : e = .typeError "ecutwfc" := by
  unfold scfCutoffs at h
  dsimp only at h
  split at h
  · simp only [Except.error.injEq] at h
    exact h.symm
  · exact absurd h (by simp)

/-- The wiring phase can only fail with a KeyError. -/
theorem wireGraph_error_inv (codes : Codes) (st pseudos : String)
    (i5 : Inputs) (dims : Nat × Nat × Nat) (nkpts : KpointsData)
    (e : BuildError)
    (h : wireGraph codes st pseudos i5 dims nkpts = .error e) :
    ∃ k, e = .keyError k := by
  unfold wireGraph at h
  dsimp only at h
  match hk : (i5.scf.getD {}).kpoints with
  | none =>
      simp only [hk, Except.error.injEq] at h
      exact ⟨"kpoints", h.symm⟩
  | some kp =>
    simp only [hk] at h
    match hp : (i5.wannier90.getD {}).kpoint_path with
    | none =>
        simp only [hp, Except.error.injEq] at h
        exact ⟨"kpoint_path", h.symm⟩
    | some kpath =>
      simp only [hp] at h
      match hj : (i5.wannier90.getD {}).projections with
      | none =>
          simp only [hj, Except.error.injEq] at h
          exact ⟨"projections", h.symm⟩
      | some projs => simp [hj] at h

/-- Whether the builder returned a graph. -/
def buildOk (r : Except BuildError WorkGraph) : Bool :=
  match r with
  | .ok _ => true
  | .error _ => false

theorem buildOk_iff (r : Except BuildError WorkGraph) :
    buildOk r = true ↔ ∃ wg, r = .ok wg := by
  cases r <;> simp [buildOk]

/-! ## Concrete fixtures used by counterexamples and witnesses -/

def egCodes : Codes :=
  { pw := "pw-code", pw2wannier90 := "p2w-code", wannier90 := "w90-code" }

/-- An unshifted 2x2x2 Monkhorst-Pack mesh. -/
def mesh222 : KpointsData := .mesh (2, 2, 2) ((0 : ℚ), (0 : ℚ), (0 : ℚ))

/-- An explicit one-point k-point list. -/
def gammaOnly : KpointsData := .explicitList [((0 : ℚ), (0 : ℚ), (0 : ℚ))]

/-- A wannier90 section carrying the two entries the wiring indexes. -/
def egW90Section : W90Stage :=
  { kpoint_path := some (.str "kpath"), projections := some (.str "proj") }

/-- A tree supplying ecutrho but not ecutwfc in the scf SYSTEM namelist. -/
def c1Inputs : Inputs :=
  { scf := some { parameters := some [("SYSTEM", [("ecutrho", .num 100)])],
                  kpoints := some gammaOnly },
    nscf := some { kpoints := some mesh222 },
    wannier90 := some egW90Section }

/-! ## Claim C1 -/

/-- C1 counterexample: with a caller-supplied ecutrho of 100 (and no
ecutwfc), the scf SYSTEM namelist after graph construction holds
ecutrho = 240 (8 x the defaulted wavefunction cutoff), not the caller
value: the caller-supplied ecutrho key is overwritten, refuting the claim
that it is preserved. -/
theorem C1_counterexample :
    alookup (builtScfSystem
        (minimal_w90_workgraph egCodes "GaAs" "SSSP" (some c1Inputs)))
        "ecutrho" = some (.num 240)
    ∧ alookup (origScfSystem (some c1Inputs)) "ecutrho" = some (.num 100)
    ∧ PVal.num 240 ≠ PVal.num 100 := by
  refine ⟨?_, by decide, ?_⟩
  · have h : alookup (builtScfSystem
        (minimal_w90_workgraph egCodes "GaAs" "SSSP" (some c1Inputs)))
        "ecutrho" = some (.num (30 * 8)) := rfl
    rw [h]
    norm_num
  · intro h
    exact absurd (PVal.num.inj h) (by norm_num)

/-- C1 (amended): for every inputs tree whose scf SYSTEM ecutwfc entry is
numeric or absent, the scf SYSTEM after graph construction holds the
caller-supplied ecutwfc verbatim (30.0 when unset), and ecutrho always
equal to 8 x the numeric value of that ecutwfc entry (240.0 by default);
a caller-supplied ecutrho key is never read and is overwritten. -/
theorem C1_amended (codes : Codes) (st pf : String) (inp : Option Inputs)
    (w : ℚ)
    (hw : ((alookup (origScfSystem inp) "ecutwfc").getD (.num 30)).asNum
      = some w) :
    alookup (builtScfSystem (minimal_w90_workgraph codes st pf inp))
        "ecutwfc" = some ((alookup (origScfSystem inp) "ecutwfc").getD (.num 30))
    ∧ alookup (builtScfSystem (minimal_w90_workgraph codes st pf inp))
        "ecutrho" = some (.num (w * 8)) := by
  simp only [origScfSystem] at hw ⊢
  have hw1 : ((alookup (scfSystemOf (scfEnsureKeys (inp.getD {})))
      "ecutwfc").getD (.num 30)).asNum = some w := by
    rw [scfEnsureKeys_system]; exact hw
  obtain ⟨i2, hok, -, -, -, -, -, hps⟩ := scfCutoffs_ok _ w hw1
  obtain ⟨s, ps, hs0, hps0, hctrl, hsys⟩ := hps
  have hscf := build_fst_scf codes st pf inp i2 hok
  have hbs : builtScfSystem (minimal_w90_workgraph codes st pf inp)
      = aupdate (scfSystemOf (scfEnsureKeys (inp.getD {})))
          [("ecutwfc",
            (alookup (scfSystemOf (scfEnsureKeys (inp.getD {})))
              "ecutwfc").getD (.num 30)),
           ("ecutrho", .num (w * 8))] := by
    unfold builtScfSystem scfSystemOf
    rw [hscf, hs0]
    simp only [Option.getD_some]
    rw [hps0]
    simp only [Option.getD_some]
    rw [hsys]
    simp only [Option.getD_some]
    rfl
  rw [hbs, scfEnsureKeys_system]
  constructor
  · simp only [aupdate]
    rw [alookup_ainsert_ne _ _ _ _ (by decide), alookup_ainsert_self]
  · simp only [aupdate]
    rw [alookup_ainsert_self]

/-- C1 witness: the amended theorem evaluated at the concrete tree, where
the defaulted ecutwfc value is 30 and ecutrho becomes 240. -/
theorem C1_witness :
    alookup (builtScfSystem
        (minimal_w90_workgraph egCodes "GaAs" "SSSP" (some c1Inputs)))
        "ecutwfc"
      = some ((alookup (origScfSystem (some c1Inputs)) "ecutwfc").getD (.num 30))
    ∧ alookup (builtScfSystem
        (minimal_w90_workgraph egCodes "GaAs" "SSSP" (some c1Inputs)))
        "ecutrho" = some (.num (30 * 8)) :=
  C1_amended egCodes "GaAs" "SSSP" (some c1Inputs) 30 (by decide)

/-! ## Claim C2 -/

/-- A tree with scf SYSTEM supplied (ecutwfc = 35) and an nscf section
that has kpoints but no parameters. -/
def c2Inputs : Inputs :=
  { scf := some { parameters := some [("SYSTEM", [("ecutwfc", .num 35)])],
                  kpoints := some gammaOnly },
    nscf := some { kpoints := some mesh222 },
    wannier90 := some egW90Section }

/-- C2: the clone of the scf SYSTEM namelist into the nscf parameters
never happens, because line 115 tests the scf parameters (where SYSTEM
always exists after line 68) instead of the nscf parameters: at a tree
with scf SYSTEM supplied and nscf parameters unset, the build succeeds
and the parameters bound to the nscf task contain no SYSTEM key at all,
while the claim (and the spec) require them to contain a copy of the scf
SYSTEM namelist. -/
theorem C2_nscf_system_not_inherited :
    (taskParams ((minimal_w90_workgraph egCodes "GaAs" "SSSP"
        (some c2Inputs)).2) "nscf").map (fun p => alookup p "SYSTEM")
      = some none
    ∧ alookup (origScfSystem (some c2Inputs)) "ecutwfc" = some (.num 35)
    ∧ buildOk ((minimal_w90_workgraph egCodes "GaAs" "SSSP"
        (some c2Inputs)).2) = true := by
  refine ⟨by decide, by decide, by decide⟩

/-! ## Claim C3 -/

/-- A tree whose pw2wannier90 settings already carry an
ADDITIONAL_RETRIEVE_LIST entry. -/
def c3Inputs : Inputs :=
  { scf := some { kpoints := some gammaOnly },
    nscf := some { kpoints := some mesh222 },
    pw2wannier90 := some
      { settings := some [("ADDITIONAL_RETRIEVE_LIST", .strList ["*.chk"])] },
    wannier90 := some egW90Section }

/-- C3 counterexample: with a caller-supplied retrieve list containing
*.chk, the list bound to the pw2wan task is exactly the three fixed
patterns and has lost the caller entry, refuting the merge/superset
claim. -/
theorem C3_counterexample :
    (taskSettings ((minimal_w90_workgraph egCodes "GaAs" "SSSP"
        (some c3Inputs)).2) "pw2wan").map retrieveList
      = some ["*.amn", "*.mmn", "*.eig"]
    ∧ ¬ ("*.chk" ∈ (["*.amn", "*.mmn", "*.eig"] : List String)) := by
  refine ⟨by decide, by decide⟩

/-- C3 (amended): the settings bound to the pw2wan task always carry an
ADDITIONAL_RETRIEVE_LIST equal to exactly the three fixed patterns *.amn,
*.mmn, *.eig: a caller-supplied list under that key is replaced, not
merged; caller settings entries under every other key are preserved. -/
theorem C3_amended (codes : Codes) (st pf : String) (inp : Option Inputs)
    (hok : buildOk ((minimal_w90_workgraph codes st pf inp).2) = true) :
    ∃ s, taskSettings ((minimal_w90_workgraph codes st pf inp).2) "pw2wan"
        = some s
      ∧ alookup s "ADDITIONAL_RETRIEVE_LIST"
        = some (.strList ["*.amn", "*.mmn", "*.eig"])
      ∧ ∀ k, k ≠ "ADDITIONAL_RETRIEVE_LIST" →
          alookup s k
            = alookup (((inp.getD {}).pw2wannier90.getD {}).settings.getD []) k := by
  obtain ⟨wg, hwg⟩ := (buildOk_iff _).1 hok
  obtain ⟨i2, dims, nkpts, hc, hnv, hwire, -⟩ :=
    build_ok_inv codes st pf inp wg hwg
  obtain ⟨kp, kpath, projs, h1, h2, h3⟩ :=
    wireGraph_ok_inv _ _ _ _ _ _ _ hwire
  obtain ⟨wg2, hwire2, -, hset, -⟩ :=
    wireGraph_parts codes st (get_pseudos pf st) _ dims nkpts kp kpath projs
      h1 h2 h3
  have hwgeq : wg2 = wg := by
    rw [hwire] at hwire2
    exact (Except.ok.inj hwire2).symm
  rw [hwgeq] at hset
  have hsections := scfCutoffs_ok_sections _ _ hc
  have hstage : pw2wanSettingsOf
      ((w90Ensure (pw2wanEnsure (nscfDefaults i2))).pw2wannier90.getD {})
      = pw2wanSettingsOf ((inp.getD {}).pw2wannier90.getD {}) := by
    rw [w90Ensure_pw2wannier90]
    rw [(pw2wanEnsure_stage (nscfDefaults i2)).1]
    rw [nscfDefaults_pw2wannier90, hsections.2.1, scfEnsureKeys_pw2wannier90]
  rw [hstage] at hset
  rw [hwg]
  refine ⟨_, hset, ?_, ?_⟩
  · unfold pw2wanSettingsOf
    simp only [aupdate]
    rw [alookup_ainsert_self]
  · intro k hk
    unfold pw2wanSettingsOf
    simp only [aupdate]
    rw [alookup_ainsert_ne _ _ _ _ (Ne.symm hk)]

/-- C3 witness: the amended theorem applied at the concrete tree that
already carried a retrieve list. -/
theorem C3_witness :
    ∃ s, taskSettings ((minimal_w90_workgraph egCodes "GaAs" "SSSP"
        (some c3Inputs)).2) "pw2wan" = some s
      ∧ alookup s "ADDITIONAL_RETRIEVE_LIST"
        = some (.strList ["*.amn", "*.mmn", "*.eig"])
      ∧ ∀ k, k ≠ "ADDITIONAL_RETRIEVE_LIST" →
          alookup s k
            = alookup ((((some c3Inputs).getD {}).pw2wannier90.getD
                {}).settings.getD []) k :=
  C3_amended egCodes "GaAs" "SSSP" (some c3Inputs) (by decide)

/-! ## Claim C4 -/

/-- C4: when the nscf section is missing, or present without a kpoints
entry, the builder returns an error raised by the cutoff computation or
the nscf asserts (all on lines 71-95, before the WorkGraph of line 175 is
instantiated): no graph is ever produced. -/
theorem C4_missing_nscf_fails (codes : Codes) (st pf : String)
    (inp : Option Inputs)
    (h : (inp.getD {}).nscf = none
      ∨ ∃ ns, (inp.getD {}).nscf = some ns ∧ ns.kpoints = none) :
    ∃ e, (minimal_w90_workgraph codes st pf inp).2 = .error e
      ∧ (e = .typeError "ecutwfc" ∨ e = .nscfMissing
          ∨ e = .nscfKpointsMissing) := by
  cases hna : ((alookup (scfSystemOf (inp.getD {})) "ecutwfc").getD
      (.num 30)).asNum with
  | none =>
      have herr := scfCutoffs_err (scfEnsureKeys (inp.getD {}))
        (by rw [scfEnsureKeys_system]; exact hna)
      have := build_typeError codes st pf inp _ herr
      exact ⟨_, congrArg Prod.snd this, Or.inl rfl⟩
  | some w =>
      obtain ⟨i2, hok, hnscf, -, -, -, -, -⟩ := scfCutoffs_ok _ w
        (by rw [scfEnsureKeys_system]; exact hna)
      rw [scfEnsureKeys_nscf] at hnscf
      cases h with
      | inl hmiss =>
          have hv := (nscfValidate_err i2).1 (by rw [hnscf, hmiss])
          have := build_validate_err codes st pf inp i2 _ hok hv
          exact ⟨_, congrArg Prod.snd this, Or.inr (Or.inl rfl)⟩
      | inr hsome =>
          obtain ⟨ns, hns, hkp⟩ := hsome
          have hv := (nscfValidate_err i2).2.1 ns (by rw [hnscf, hns]) hkp
          have := build_validate_err codes st pf inp i2 _ hok hv
          exact ⟨_, congrArg Prod.snd this, Or.inr (Or.inr rfl)⟩

/-- C4 witness: with no inputs at all, the build fails with the missing
nscf assert. -/
theorem C4_witness :
    ∃ e, (minimal_w90_workgraph egCodes "Si" "SSSP" none).2 = .error e
      ∧ (e = .typeError "ecutwfc" ∨ e = .nscfMissing
          ∨ e = .nscfKpointsMissing) :=
  C4_missing_nscf_fails egCodes "Si" "SSSP" none (Or.inl rfl)

/-! ## Claim C5 -/

/-- C5: with an nscf section present and a numeric (or absent) scf
ecutwfc, the k-point validation rejects exactly the non-zero-shift-mesh
specifications: an explicit list raises the ValueError, a mesh with
nonzero shift raises the unshifted assert, and a zero-shift mesh passes
this validation (any later failure is not one of the k-point validation
errors). -/
theorem C5_kpoint_validation (codes : Codes) (st pf : String)
    (inp : Option Inputs) (ns : PwStage) (w : ℚ)
    (hns : (inp.getD {}).nscf = some ns)
    (hw : ((alookup (origScfSystem inp) "ecutwfc").getD (.num 30)).asNum
      = some w) :
    (∀ pts, ns.kpoints = some (.explicitList pts) →
      (minimal_w90_workgraph codes st pf inp).2
        = .error .explicitKpointsGiven)
    ∧ (∀ dims shift, ns.kpoints = some (.mesh dims shift) →
        shift ≠ ((0 : ℚ), (0 : ℚ), (0 : ℚ)) →
        (minimal_w90_workgraph codes st pf inp).2 = .error .shiftNonzero)
    ∧ (∀ dims, ns.kpoints
          = some (.mesh dims ((0 : ℚ), (0 : ℚ), (0 : ℚ))) →
        ∀ e, (minimal_w90_workgraph codes st pf inp).2 = .error e →
          e.isKpValidationError = false) := by
  simp only [origScfSystem] at hw
  obtain ⟨i2, hok, hnscf, -, -, -, -, -⟩ := scfCutoffs_ok _ w
    (by rw [scfEnsureKeys_system]; exact hw)
  rw [scfEnsureKeys_nscf] at hnscf
  refine ⟨?_, ?_, ?_⟩
  · intro pts hkp
    have hv := (nscfValidate_err i2).2.2.1 ns pts (by rw [hnscf, hns]) hkp
    have := build_validate_err codes st pf inp i2 _ hok hv
    exact congrArg Prod.snd this
  · intro dims shift hkp hsh
    have hv := (nscfValidate_err i2).2.2.2 ns dims shift
      (by rw [hnscf, hns]) hkp hsh
    have := build_validate_err codes st pf inp i2 _ hok hv
    exact congrArg Prod.snd this
  · intro dims hkp e he
    have hv := nscfValidate_ok i2 ns dims (by rw [hnscf, hns]) hkp
    have hsnd := build_snd_wire codes st pf inp i2 dims
      (.explicitList (meshPoints dims)) hok hv
    rw [hsnd] at he
    obtain ⟨k, hke⟩ := wireGraph_error_inv _ _ _ _ _ _ _ he
    rw [hke]
    rfl

/-- A tree supplying an explicit k-point list for the nscf stage. -/
def c5Inputs : Inputs := { nscf := some { kpoints := some gammaOnly } }

/-- C5 witness: the validation theorem applied at a tree with an explicit
nscf k-point list, which is rejected with the ValueError. -/
theorem C5_witness :
    (minimal_w90_workgraph egCodes "Si" "SSSP" (some c5Inputs)).2
      = .error .explicitKpointsGiven :=
  (C5_kpoint_validation egCodes "Si" "SSSP" (some c5Inputs)
      { kpoints := some gammaOnly } 30 rfl (by decide)).1
    [((0 : ℚ), (0 : ℚ), (0 : ℚ))] rfl

/-! ## Claim C6 -/

/-- C6: when the nscf k-points are a mesh and a graph is returned, the
conversion succeeded and both Wannier construction tasks (w90_pp and w90)
receive the explicit enumeration of the mesh, whose length is the product
of the three mesh dimensions. -/
theorem C6_mesh_conversion (codes : Codes) (st pf : String)
    (inp : Option Inputs) (ns : PwStage) (dims : Nat × Nat × Nat)
    (shift : ℚ × ℚ × ℚ)
    (hns : (inp.getD {}).nscf = some ns)
    (hkp : ns.kpoints = some (.mesh dims shift))
    (hok : buildOk ((minimal_w90_workgraph codes st pf inp).2) = true) :
    get_explicit_kpoints (.mesh dims shift)
      = some (.explicitList (meshPoints dims))
    ∧ taskKpoints ((minimal_w90_workgraph codes st pf inp).2) "w90_pp"
      = some (.explicitList (meshPoints dims))
    ∧ taskKpoints ((minimal_w90_workgraph codes st pf inp).2) "w90"
      = some (.explicitList (meshPoints dims))
    ∧ (meshPoints dims).length = dims.1 * dims.2.1 * dims.2.2 := by
  obtain ⟨wg, hwg⟩ := (buildOk_iff _).1 hok
  obtain ⟨i2, dims', nkpts, hc, hnv, hwire, -⟩ :=
    build_ok_inv codes st pf inp wg hwg
  obtain ⟨ns', hns', hkp', hnk⟩ := nscfValidate_ok_inv i2 dims' nkpts hnv
  have hnscf : i2.nscf = (inp.getD {}).nscf :=
    (scfCutoffs_ok_sections _ _ hc).1.trans (scfEnsureKeys_nscf _)
  rw [hnscf, hns] at hns'
  have hnseq : ns' = ns := (Option.some.inj hns').symm
  rw [hnseq, hkp] at hkp'
  have hmesh := Option.some.inj hkp'
  have hdims : dims = dims' := (KpointsData.mesh.inj hmesh).1
  obtain ⟨kp, kpath, projs, h1, h2, h3⟩ :=
    wireGraph_ok_inv _ _ _ _ _ _ _ hwire
  obtain ⟨wg2, hwire2, -, -, hkpp, hkw, -⟩ :=
    wireGraph_parts codes st (get_pseudos pf st) _ dims' nkpts kp kpath projs
      h1 h2 h3
  have hwgeq : wg2 = wg := by
    rw [hwire] at hwire2
    exact (Except.ok.inj hwire2).symm
  rw [hwgeq, hnk] at hkpp hkw
  rw [hwg, hdims]
  exact ⟨by simp [get_explicit_kpoints,
      KpointsData.get_kpoints_mesh_print_list], hkpp, hkw,
    meshPoints_length dims'⟩

/-- A fully supplied minimal tree: explicit scf k-points, a 2x2x2
unshifted nscf mesh, the wannier90 kpoint_path and projections, nothing
else. -/
def okInputs : Inputs :=
  { scf := some { kpoints := some gammaOnly },
    nscf := some { kpoints := some mesh222 },
    wannier90 := some egW90Section }

/-- C6 witness: the conversion theorem applied at the 2x2x2 tree; the
explicit list has 8 points. -/
theorem C6_witness :
    get_explicit_kpoints (.mesh (2, 2, 2) ((0 : ℚ), (0 : ℚ), (0 : ℚ)))
      = some (.explicitList (meshPoints (2, 2, 2)))
    ∧ taskKpoints ((minimal_w90_workgraph egCodes "GaAs" "SSSP"
        (some okInputs)).2) "w90_pp"
      = some (.explicitList (meshPoints (2, 2, 2)))
    ∧ taskKpoints ((minimal_w90_workgraph egCodes "GaAs" "SSSP"
        (some okInputs)).2) "w90"
      = some (.explicitList (meshPoints (2, 2, 2)))
    ∧ (meshPoints (2, 2, 2)).length = 2 * 2 * 2 :=
  C6_mesh_conversion egCodes "GaAs" "SSSP" (some okInputs)
    { kpoints := some mesh222 } (2, 2, 2) ((0 : ℚ), (0 : ℚ), (0 : ℚ))
    rfl rfl (by decide)

/-! ## Claim C7 -/

/-- C7: for the concrete 2x2x2 call with no further overrides, the graph
has exactly the five named tasks scf, nscf, w90_pp, pw2wan, w90; its only
data-dependency edges are nscf.parent_folder from scf.remote_folder,
pw2wan.parent_folder from nscf.remote_folder, pw2wan.nnkp_file from
w90_pp.nnkp_file, and w90.remote_input_folder from pw2wan.remote_folder;
the w90_pp task has no incoming edge; and the w90 task's mp_grid
parameter is [2, 2, 2]. -/
theorem C7_graph_shape :
    wgNames ((minimal_w90_workgraph egCodes "GaAs" "SSSP"
        (some okInputs)).2)
      = some ["scf", "nscf", "w90_pp", "pw2wan", "w90"]
    ∧ wgEdges ((minimal_w90_workgraph egCodes "GaAs" "SSSP"
        (some okInputs)).2)
      = some [("nscf", "parent_folder", "scf", "remote_folder"),
              ("pw2wan", "parent_folder", "nscf", "remote_folder"),
              ("pw2wan", "nnkp_file", "w90_pp", "nnkp_file"),
              ("w90", "remote_input_folder", "pw2wan", "remote_folder")]
    ∧ (wgEdges ((minimal_w90_workgraph egCodes "GaAs" "SSSP"
        (some okInputs)).2)).map
          (fun es => es.filter (fun e => e.1 = "w90_pp"))
      = some []
    ∧ (taskNamelist ((minimal_w90_workgraph egCodes "GaAs" "SSSP"
        (some okInputs)).2) "w90").map (fun n => alookup n "mp_grid")
      = some (some (.natList [2, 2, 2])) := by
  refine ⟨by decide, by decide, by decide, by decide⟩

/-! ## Claim C8 -/

/-- A caller resource request distinct from both templates. -/
def c8Opts : ResourceOptions :=
  { resources := [("num_machines", 4)],
    max_wallclock_seconds := 600,
    withmpi := true }

/-- A tree supplying metadata for the wannier90 stage. -/
def c8Inputs : Inputs :=
  { scf := some { kpoints := some gammaOnly },
    nscf := some { kpoints := some mesh222 },
    wannier90 := some { kpoint_path := some (.str "kpath"),
                        projections := some (.str "proj"),
                        metadata := some [("options", .options c8Opts)] } }

/-- C8 counterexample: with caller metadata supplied for the wannier90
stage, the w90 task receives it but the w90_pp task still receives the
raw serial template (line 211 passes metadata_default_no_mpi, not the
updated wannier90_metadata), refuting the claim that every node of the
stage receives the caller metadata. -/
theorem C8_counterexample :
    taskMetadata ((minimal_w90_workgraph egCodes "GaAs" "SSSP"
        (some c8Inputs)).2) "w90_pp" = some metadata_default_no_mpi
    ∧ taskMetadata ((minimal_w90_workgraph egCodes "GaAs" "SSSP"
        (some c8Inputs)).2) "w90" = some [("options", .options c8Opts)]
    ∧ metadata_default_no_mpi ≠ [("options", MVal.options c8Opts)] := by
  refine ⟨by decide, by decide, by decide⟩

/-- C8 (amended): whenever a graph is returned, the scf, nscf and pw2wan
tasks receive the multi-node MPI template updated wholesale (top-level
keys replaced) with the caller metadata of their stage, and the w90 task
receives the single-node serial template updated with the wannier90 stage
metadata; the w90_pp task, however, always receives the raw serial
template, ignoring caller metadata. -/
theorem C8_amended (codes : Codes) (st pf : String) (inp : Option Inputs)
    (hok : buildOk ((minimal_w90_workgraph codes st pf inp).2) = true) :
    taskMetadata ((minimal_w90_workgraph codes st pf inp).2) "scf"
      = some (aupdate metadata_default_mpi
          (((inp.getD {}).scf.getD {}).metadata.getD []))
    ∧ taskMetadata ((minimal_w90_workgraph codes st pf inp).2) "nscf"
      = some (aupdate metadata_default_mpi
          (((inp.getD {}).nscf.getD {}).metadata.getD []))
    ∧ taskMetadata ((minimal_w90_workgraph codes st pf inp).2) "pw2wan"
      = some (aupdate metadata_default_mpi
          (((inp.getD {}).pw2wannier90.getD {}).metadata.getD []))
    ∧ taskMetadata ((minimal_w90_workgraph codes st pf inp).2) "w90"
      = some (aupdate metadata_default_no_mpi
          (((inp.getD {}).wannier90.getD {}).metadata.getD []))
    ∧ taskMetadata ((minimal_w90_workgraph codes st pf inp).2) "w90_pp"
      = some metadata_default_no_mpi := by
  obtain ⟨wg, hwg⟩ := (buildOk_iff _).1 hok
  obtain ⟨i2, dims, nkpts, hc, hnv, hwire, -⟩ :=
    build_ok_inv codes st pf inp wg hwg
  obtain ⟨kp, kpath, projs, h1, h2, h3⟩ :=
    wireGraph_ok_inv _ _ _ _ _ _ _ hwire
  obtain ⟨wg2, hwire2, -, -, -, -, hmscf, hmnscf, hmp2w, hmpp, hmw90, -, -⟩ :=
    wireGraph_parts codes st (get_pseudos pf st) _ dims nkpts kp kpath projs
      h1 h2 h3
  have hwgeq : wg2 = wg := by
    rw [hwire] at hwire2
    exact (Except.ok.inj hwire2).symm
  have hsec := scfCutoffs_ok_sections _ _ hc
  rw [hwgeq] at hmscf hmnscf hmp2w hmpp hmw90
  rw [w90Ensure_scf, pw2wanEnsure_scf, nscfDefaults_scf, hsec.2.2.2.2,
    scfEnsureKeys_metadata] at hmscf
  rw [w90Ensure_nscf, pw2wanEnsure_nscf, nscfDefaults_nscf_metadata,
    hsec.1, scfEnsureKeys_nscf] at hmnscf
  rw [w90Ensure_pw2wannier90,
    (pw2wanEnsure_stage (nscfDefaults i2)).2.2,
    nscfDefaults_pw2wannier90, hsec.2.1,
    scfEnsureKeys_pw2wannier90] at hmp2w
  rw [w90Ensure_wannier90] at hmw90
  simp only [Option.getD_some] at hmw90
  rw [pw2wanEnsure_wannier90, nscfDefaults_wannier90, hsec.2.2.1,
    scfEnsureKeys_wannier90] at hmw90
  rw [hwg]
  exact ⟨hmscf, hmnscf, hmp2w, hmw90, hmpp⟩

/-- C8 witness: the amended theorem applied at the tree with wannier90
metadata supplied; the w90 task gets the caller options, w90_pp the raw
template. -/
theorem C8_witness :
    taskMetadata ((minimal_w90_workgraph egCodes "GaAs" "SSSP"
        (some c8Inputs)).2) "scf"
      = some (aupdate metadata_default_mpi
          ((((some c8Inputs).getD {}).scf.getD {}).metadata.getD []))
    ∧ taskMetadata ((minimal_w90_workgraph egCodes "GaAs" "SSSP"
        (some c8Inputs)).2) "nscf"
      = some (aupdate metadata_default_mpi
          ((((some c8Inputs).getD {}).nscf.getD {}).metadata.getD []))
    ∧ taskMetadata ((minimal_w90_workgraph egCodes "GaAs" "SSSP"
        (some c8Inputs)).2) "pw2wan"
      = some (aupdate metadata_default_mpi
          ((((some c8Inputs).getD {}).pw2wannier90.getD {}).metadata.getD []))
    ∧ taskMetadata ((minimal_w90_workgraph egCodes "GaAs" "SSSP"
        (some c8Inputs)).2) "w90"
      = some (aupdate metadata_default_no_mpi
          ((((some c8Inputs).getD {}).wannier90.getD {}).metadata.getD []))
    ∧ taskMetadata ((minimal_w90_workgraph egCodes "GaAs" "SSSP"
        (some c8Inputs)).2) "w90_pp" = some metadata_default_no_mpi :=
  C8_amended egCodes "GaAs" "SSSP" (some c8Inputs) (by decide)

/-! ## Claim C9 -/

/-- A tree passing all three k-point validations but lacking the
wannier90 section. -/
def c9Inputs : Inputs :=
  { scf := some { kpoints := some gammaOnly },
    nscf := some { kpoints := some mesh222 } }

/-- C9 counterexample: a tree that passes the three documented
validations but has no wannier90 section makes graph construction fail
with a KeyError on the kpoint_path entry (line 208 indexes it directly),
instead of defaulting the absent section and returning a five-node graph. -/
theorem C9_counterexample :
    (minimal_w90_workgraph egCodes "GaAs" "SSSP" (some c9Inputs)).2
      = .error (.keyError "kpoint_path")
    ∧ (BuildError.keyError "kpoint_path").isKpValidationError = false := by
  refine ⟨rfl, by decide⟩

/-- C9 (amended): graph construction has failure modes beyond the three
documented validations: a TypeError on a non-numeric scf ecutwfc and
KeyErrors on the directly indexed scf kpoints, wannier90 kpoint_path and
wannier90 projections entries. For every tree that passes the three
validations and supplies those entries (with numeric or absent ecutwfc),
all other absent sections are defaulted and a complete five-node graph is
returned. -/
theorem C9_amended (codes : Codes) (st pf : String) (inp : Option Inputs)
    (ns : PwStage) (dims : Nat × Nat × Nat) (w : ℚ) (kp : KpointsData)
    (kpath projs : PVal)
    (hw : ((alookup (origScfSystem inp) "ecutwfc").getD (.num 30)).asNum
      = some w)
    (hns : (inp.getD {}).nscf = some ns)
    (hkp : ns.kpoints = some (.mesh dims ((0 : ℚ), (0 : ℚ), (0 : ℚ))))
    (hscfkp : ((inp.getD {}).scf.getD {}).kpoints = some kp)
    (hpath : ((inp.getD {}).wannier90.getD {}).kpoint_path = some kpath)
    (hproj : ((inp.getD {}).wannier90.getD {}).projections = some projs) :
    ∃ wg, (minimal_w90_workgraph codes st pf inp).2 = .ok wg
      ∧ wgNames (.ok wg) = some ["scf", "nscf", "w90_pp", "pw2wan", "w90"] := by
  simp only [origScfSystem] at hw
  obtain ⟨i2, hok, hnscf, hs2, hs3, hkpts, -, -⟩ := scfCutoffs_ok _ w
    (by rw [scfEnsureKeys_system]; exact hw)
  have hnv := nscfValidate_ok i2 ns dims
    (by rw [hnscf, scfEnsureKeys_nscf, hns]) hkp
  have hsnd := build_snd_wire codes st pf inp i2 dims
    (.explicitList (meshPoints dims)) hok hnv
  have h1 : ((w90Ensure (pw2wanEnsure (nscfDefaults i2))).scf.getD
      {}).kpoints = some kp := by
    rw [w90Ensure_scf, pw2wanEnsure_scf, nscfDefaults_scf, hkpts,
      scfEnsureKeys_kpoints, hscfkp]
  have h2 : ((w90Ensure (pw2wanEnsure (nscfDefaults i2))).wannier90.getD
      {}).kpoint_path = some kpath := by
    rw [w90Ensure_wannier90]
    simp only [Option.getD_some]
    rw [pw2wanEnsure_wannier90, nscfDefaults_wannier90, hs3,
      scfEnsureKeys_wannier90, hpath]
  have h3 : ((w90Ensure (pw2wanEnsure (nscfDefaults i2))).wannier90.getD
      {}).projections = some projs := by
    rw [w90Ensure_wannier90]
    simp only [Option.getD_some]
    rw [pw2wanEnsure_wannier90, nscfDefaults_wannier90, hs3,
      scfEnsureKeys_wannier90, hproj]
  obtain ⟨wg, hwire, hnames, -⟩ :=
    wireGraph_parts codes st (get_pseudos pf st) _ dims
      (.explicitList (meshPoints dims)) kp kpath projs h1 h2 h3
  exact ⟨wg, by rw [hsnd, hwire], hnames⟩

/-- C9 witness: the amended theorem applied at the fully supplied minimal
tree. -/
theorem C9_witness :
    ∃ wg, (minimal_w90_workgraph egCodes "Si" "pseudo"
        (some okInputs)).2 = .ok wg
      ∧ wgNames (.ok wg) = some ["scf", "nscf", "w90_pp", "pw2wan", "w90"] :=
  C9_amended egCodes "Si" "pseudo" (some okInputs)
    { kpoints := some mesh222 } (2, 2, 2) 30 gammaOnly
    (.str "kpath") (.str "proj") (by decide) rfl rfl rfl rfl rfl

/-! ## Claim C10 -/

/-- C10: whenever graph construction fails one of the k-point
validations, the caller tree has already been mutated in place: the scf
section, its parameters dict and the CONTROL and SYSTEM namelists exist,
calculation=scf has been forced, the ecutwfc entry holds the caller value
(30.0 when unset) and ecutrho 8 x its numeric value. -/
theorem C10_mutation_before_error (codes : Codes) (st pf : String)
    (inp : Option Inputs) (e : BuildError)
    (he : (minimal_w90_workgraph codes st pf inp).2 = .error e)
    (hv : e.isKpValidationError = true) :
    ∃ s ps ctrl sys,
      (minimal_w90_workgraph codes st pf inp).1.scf = some s
      ∧ s.parameters = some ps
      ∧ alookup ps "CONTROL" = some ctrl
      ∧ alookup ctrl "calculation" = some (.str "scf")
      ∧ alookup ps "SYSTEM" = some sys
      ∧ ∃ w, ((alookup (origScfSystem inp) "ecutwfc").getD
            (.num 30)).asNum = some w
          ∧ alookup sys "ecutwfc"
            = some ((alookup (origScfSystem inp) "ecutwfc").getD (.num 30))
          ∧ alookup sys "ecutrho" = some (.num (w * 8)) := by
  simp only [origScfSystem]
  cases hna : ((alookup (scfSystemOf (inp.getD {})) "ecutwfc").getD
      (.num 30)).asNum with
  | none =>
      have herr := scfCutoffs_err _
        (by rw [scfEnsureKeys_system]; exact hna)
      have hb := build_typeError codes st pf inp _ herr
      have h2 : (minimal_w90_workgraph codes st pf inp).2
          = .error (.typeError "ecutwfc") := congrArg Prod.snd hb
      have heq : e = .typeError "ecutwfc" :=
        Except.error.inj (he.symm.trans h2)
      rw [heq] at hv
      exact absurd hv (by decide)
  | some w =>
      obtain ⟨i2, hok, -, -, -, -, -, hps⟩ := scfCutoffs_ok _ w
        (by rw [scfEnsureKeys_system]; exact hna)
      obtain ⟨s, ps, hs0, hps0, hctrl, hsys⟩ := hps
      have hscf := build_fst_scf codes st pf inp i2 hok
      refine ⟨s, ps, _, _, hscf.trans hs0, hps0, hctrl, ?_, hsys, w,
        rfl, ?_, ?_⟩
      · simp only [aupdate]
        rw [alookup_ainsert_self]
      · simp only [aupdate]
        rw [alookup_ainsert_ne _ _ _ _ (by decide), alookup_ainsert_self,
          scfEnsureKeys_system]
      · simp only [aupdate]
        rw [alookup_ainsert_self]

/-- C10 witness: with no inputs, the build fails the missing-nscf assert
and the returned tree already carries the forced scf defaults. -/
theorem C10_witness :
    ∃ s ps ctrl sys,
      (minimal_w90_workgraph egCodes "Fe" "fam" none).1.scf = some s
      ∧ s.parameters = some ps
      ∧ alookup ps "CONTROL" = some ctrl
      ∧ alookup ctrl "calculation" = some (.str "scf")
      ∧ alookup ps "SYSTEM" = some sys
      ∧ ∃ w, ((alookup (origScfSystem none) "ecutwfc").getD
            (.num 30)).asNum = some w
          ∧ alookup sys "ecutwfc"
            = some ((alookup (origScfSystem none) "ecutwfc").getD (.num 30))
          ∧ alookup sys "ecutrho" = some (.num (w * 8)) :=
  C10_mutation_before_error egCodes "Fe" "fam" none .nscfMissing rfl
    (by decide)

end MinimalW90
